import Mathlib

/-!
Verification of the `imply-hack` crate (`src/lib.rs`).

The crate is a compile-time-only trick: it declares

  pub trait Imply<T>: sealed::ImplyInner<T, Is = T> {}
  impl<T, U> Imply<T> for U {}
  mod sealed {
      pub trait ImplyInner<T> { type Is; }
      impl<T, U> ImplyInner<T> for U { type Is = T; }
  }

We embed the crate at two levels:

1. A syntactic item list (`crateItems`) mirroring the items of `src/lib.rs`,
   used for the purely structural claims (item counts, absence of runtime
   code, sealing of `ImplyInner`).

2. A semantic reading of the trait bounds over an arbitrary universe of Rust
   types `ty : Type`: for the one (blanket, unconditional) impl of each trait
   we record when a type satisfies the trait and what the associated-type
   projection `<U as ImplyInner<T>>::Is` evaluates to.
-/

/-- The kind of a top-level Rust item, as relevant to this crate. -/
inductive ItemKind where
  | traitDecl
  | implBlock
  | modDecl
  | fnDecl
  | structDecl
  | enumDecl
  | constDecl
  | staticDecl
  deriving DecidableEq

/-- A Rust item of `src/lib.rs`: its enclosing module path, kind, name,
visibility, the names of the `fn`s it contains (trait methods or impl
methods), the associated types it declares, the associated types it defines,
and (for an impl) whether it is a blanket impl over a fresh type variable. -/
structure Item where
  path : List String
  kind : ItemKind
  name : String
  isPub : Bool
  fnItems : List String
  assocTypeDecls : List String
  assocTypeDefs : List String
  isBlanket : Bool
  deriving DecidableEq

/-- `pub trait Imply<T>: sealed::ImplyInner<T, Is = T> {}` (src/lib.rs:166-171):
a public trait at crate root with no methods and no associated types of its
own. -/
def implyDecl : Item :=
  ⟨[], ItemKind.traitDecl, "Imply", true, [], [], [], false⟩

/-- `impl<T, U> Imply<T> for U {}` (src/lib.rs:173): a blanket impl at crate
root, empty body. -/
def implyImpl : Item :=
  ⟨[], ItemKind.implBlock, "Imply", false, [], [], [], true⟩

/-- `mod sealed { ... }` (src/lib.rs:175-183): a private (non-`pub`) module at
crate root. -/
def sealedMod : Item :=
  ⟨[], ItemKind.modDecl, "sealed", false, [], [], [], false⟩

/-- `pub trait ImplyInner<T> { type Is; }` (src/lib.rs:176-178): a trait inside
module `sealed`, declaring the associated type `Is`, no methods. -/
def implyInnerDecl : Item :=
  ⟨["sealed"], ItemKind.traitDecl, "ImplyInner", true, [], ["Is"], [], false⟩

/-- `impl<T, U> ImplyInner<T> for U { type Is = T; }` (src/lib.rs:180-182): a
blanket impl inside module `sealed`, defining `Is`, no methods. -/
def implyInnerImpl : Item :=
  ⟨["sealed"], ItemKind.implBlock, "ImplyInner", false, [], [], ["Is"], true⟩

/-- All items of `src/lib.rs`, in source order. -/
def crateItems : List Item :=
  [implyDecl, implyImpl, sealedMod, implyInnerDecl, implyInnerImpl]

/-- The module named `m` (at crate root) is declared `pub`. -/
def modIsPub (items : List Item) (m : String) : Bool :=
  items.any fun it =>
    it.kind == ItemKind.modDecl && it.name == m && it.isPub

/-- An item can be named from outside the crate iff it is `pub` and every
module on its path is `pub`. -/
def visibleOutsideCrate (items : List Item) (it : Item) : Bool :=
  it.isPub && it.path.all (modIsPub items)

/-- A trait can be implemented by a downstream crate iff some trait
declaration of that name is visible outside the crate. -/
def externallyImplementable (items : List Item) (traitName : String) : Bool :=
  items.any fun it =>
    it.kind == ItemKind.traitDecl && it.name == traitName &&
      visibleOutsideCrate items it

/-- The runtime functions the crate defines: free `fn` items plus the `fn`s
contained in traits and impls. -/
def runtimeFns (items : List Item) : List String :=
  items.foldr (fun it acc => it.fnItems ++ acc) []

/-- The data-type definitions (structs and enums) the crate contains. -/
def dataTypeDefs (items : List Item) : List Item :=
  items.filter fun it =>
    it.kind == ItemKind.structDecl || it.kind == ItemKind.enumDecl

/-!
Semantics of the trait bounds, over an arbitrary universe `ty` of Rust types.
-/

/-- The associated-type projection `<U as ImplyInner<T>>::Is`. The only impl
of `ImplyInner` is `impl<T, U> ImplyInner<T> for U { type Is = T; }`
(src/lib.rs:180-182), so the projection is total and equals `T`. -/
def implyInnerProj {ty : Type} (_U T : ty) : ty := T

/-- `U: ImplyInner<T>` holds: the blanket impl
`impl<T, U> ImplyInner<T> for U` (src/lib.rs:180-182) has no where-clauses,
so the obligation is empty. -/
def ImplyInnerHolds {ty : Type} (_U _T : ty) : Prop := True

/-- `U: Imply<T>` holds: the blanket impl `impl<T, U> Imply<T> for U`
(src/lib.rs:173) has no where-clauses, but the trait declaration
`pub trait Imply<T>: sealed::ImplyInner<T, Is = T>` (src/lib.rs:171) requires
the supertrait `ImplyInner<T>` together with the equation
`<U as ImplyInner<T>>::Is = T`. -/
def ImplyHolds {ty : Type} (U T : ty) : Prop :=
  ImplyInnerHolds U T ∧ implyInnerProj U T = T

/-- The constraint `U: Imply<T, Is: Bound>`: `U: Imply<T>` holds and the
associated type `Is` (i.e. the projection `<U as ImplyInner<T>>::Is`)
satisfies `Bound`. -/
def ImplyWithBound {ty : Type} (Bound : ty → Prop) (U T : ty) : Prop :=
  ImplyHolds U T ∧ Bound (implyInnerProj U T)

/-- A downstream generic trait declared as
`trait MyTrait<T>: Imply<T, Is: Bound> { ... }` with implementation
conditions `Body`: `U: MyTrait<T>` requires both the impl's own conditions
and the supertrait constraint `U: Imply<T, Is: Bound>`. -/
def SubtraitHolds {ty : Type} (Body : ty → ty → Prop) (Bound : ty → Prop)
    (U T : ty) : Prop :=
  Body U T ∧ ImplyWithBound Bound U T

/-!
Claim theorems.
-/

/-- C1: for every type `U` and every type parameter `T`, the constraint
`U: Imply<T, Is: Bound>` holds exactly when `T: Bound` holds; consequently,
for any generic trait with `Imply<T, Is: Bound>` in its supertrait list,
every caller that knows the trait holds obtains `T: Bound` without restating
it. -/
theorem imply_bound_iff_bound (ty : Type) (Bound : ty → Prop) (U T : ty) :
    (ImplyWithBound Bound U T ↔ Bound T) ∧
    (∀ Body : ty → ty → Prop, SubtraitHolds Body Bound U T → Bound T) := by
  constructor
  · constructor
    · rintro ⟨_, hB⟩
      exact hB
    · intro hB
      exact ⟨⟨trivial, rfl⟩, hB⟩
  · rintro Body ⟨_, _, hB⟩
    exact hB

/-- Witness for `imply_bound_iff_bound` at `ty = Nat`, `Bound = (· = 0)`,
`U = 1`, `T = 0`, `Body = fun _ _ => True`. -/
theorem imply_bound_iff_bound_witness :
    (ImplyWithBound (fun n => n = 0) (1 : Nat) 0 ↔ (0 : Nat) = 0) ∧
    SubtraitHolds (fun _ _ => True) (fun n => n = 0) (1 : Nat) 0 ∧
    (0 : Nat) = 0 := by
  refine ⟨(imply_bound_iff_bound Nat (fun n => n = 0) 1 0).1, ?_, ?_⟩
  · exact ⟨trivial, ⟨trivial, rfl⟩, rfl⟩
  · exact (imply_bound_iff_bound Nat (fun n => n = 0) 1 0).2
      (fun _ _ => True) ⟨trivial, ⟨trivial, rfl⟩, rfl⟩

/-- C2: the associated-type projection is the identity on the trait's type
parameter: `<U as ImplyInner<T>>::Is = T` for all `U`, `T`; the `Is = T`
equation on `Imply`'s supertrait bound holds for every implementation; and
the bound `Is: Bound` is equivalent to `T: Bound`. -/
theorem imply_inner_proj_identity (ty : Type) (U T : ty) :
    implyInnerProj U T = T ∧
    (ImplyHolds U T → implyInnerProj U T = T) ∧
    (∀ Bound : ty → Prop, (Bound (implyInnerProj U T) ↔ Bound T)) := by
  refine ⟨rfl, fun _ => rfl, fun Bound => ?_⟩
  exact Iff.rfl

/-- Witness for `imply_inner_proj_identity` at `ty = Nat`, `U = 5`, `T = 7`,
`Bound = (· = 7)`. -/
theorem imply_inner_proj_identity_witness :
    implyInnerProj (5 : Nat) 7 = 7 ∧
    ((5 : Nat) = 5 → implyInnerProj (5 : Nat) 7 = 7) ∧
    (implyInnerProj (5 : Nat) 7 = 7 ↔ (7 : Nat) = 7) := by
  have h := imply_inner_proj_identity Nat 5 7
  exact ⟨h.1, fun _ => h.2.1 ⟨trivial, rfl⟩, h.2.2 (fun n => n = 7)⟩

/-- C3: the blanket implementations are unconditional: every pair of types
`(U, T)` satisfies both `U: Imply<T>` and `U: ImplyInner<T>`; and whether the
supertrait constraint `Imply<T, Is: Bound>` is satisfiable does not depend on
`U` at all, so adding it as a supertrait restricts the subtrait only through
the bound `Is: Bound` itself. -/
theorem blanket_impls_unconditional (ty : Type) (U T : ty) :
    ImplyHolds U T ∧ ImplyInnerHolds U T ∧
    (∀ (Bound : ty → Prop) (V : ty),
      ImplyWithBound Bound U T ↔ ImplyWithBound Bound V T) := by
  refine ⟨⟨trivial, rfl⟩, trivial, fun Bound V => ?_⟩
  constructor
  · rintro ⟨_, hB⟩
    exact ⟨⟨trivial, rfl⟩, hB⟩
  · rintro ⟨_, hB⟩
    exact ⟨⟨trivial, rfl⟩, hB⟩

/-- C4 counterexample: the claim "exactly three trait declarations" is false
of `src/lib.rs`: the crate contains exactly two trait declarations (`Imply`
and `sealed::ImplyInner`). -/
theorem crate_trait_count_not_three :
    ¬ (crateItems.countP (fun it => it.kind == ItemKind.traitDecl) = 3) := by
  decide

/-- C4 (amended): the source consists of exactly two trait declarations and
two blanket implementations, together with one module declaration
(`mod sealed`), and nothing else: five items in total, each of one of those
three kinds. -/
theorem crate_item_inventory :
    crateItems.countP (fun it => it.kind == ItemKind.traitDecl) = 2 ∧
    crateItems.countP
      (fun it => it.kind == ItemKind.implBlock && it.isBlanket) = 2 ∧
    crateItems.countP (fun it => it.kind == ItemKind.modDecl) = 1 ∧
    crateItems.length = 5 ∧
    crateItems.all (fun it =>
      it.kind == ItemKind.traitDecl || it.kind == ItemKind.implBlock ||
        it.kind == ItemKind.modDecl) = true := by
  decide

/-- C5: the library has no runtime behavior: no trait or impl contains any
`fn`, the crate defines no free functions, no structs, no enums, no consts
and no statics; every item is a trait declaration, an impl block, or a module
declaration. -/
theorem no_runtime_behavior :
    runtimeFns crateItems = [] ∧
    dataTypeDefs crateItems = [] ∧
    crateItems.countP (fun it => it.kind == ItemKind.fnDecl) = 0 ∧
    crateItems.countP (fun it => it.kind == ItemKind.constDecl) = 0 ∧
    crateItems.countP (fun it => it.kind == ItemKind.staticDecl) = 0 ∧
    crateItems.all (fun it =>
      it.kind == ItemKind.traitDecl || it.kind == ItemKind.implBlock ||
        it.kind == ItemKind.modDecl) = true := by
  decide

/-- C6: no operation defined by this library can fail at run time: the crate
defines no runtime functions at all and no data types (so no error values),
hence every runtime function it defines vacuously satisfies any property, in
particular "cannot fail". -/
theorem no_runtime_failure :
    runtimeFns crateItems = [] ∧
    dataTypeDefs crateItems = [] ∧
    ∀ (canFail : String → Prop) (f : String),
      f ∈ runtimeFns crateItems → ¬ canFail f := by
  refine ⟨rfl, rfl, fun canFail f hf => ?_⟩
  simp [runtimeFns, crateItems, implyDecl, implyImpl, sealedMod,
    implyInnerDecl, implyInnerImpl] at hf

/-- Witness for `no_runtime_failure`: membership in the (empty) list of
runtime functions is absurd, so the conclusion instantiates at any concrete
function name. -/
theorem no_runtime_failure_witness :
    runtimeFns crateItems = [] ∧
    ("panic_fn" ∈ runtimeFns crateItems → False) := by
  refine ⟨no_runtime_failure.1, fun hf => ?_⟩
  exact no_runtime_failure.2.2 (fun _ => True) "panic_fn" hf trivial

/-- C7: `ImplyInner` is sealed inside the private module `sealed`: it is not
visible outside the crate, no downstream crate can implement it, and hence
the only impl is the crate's own blanket impl, so the projection
`<U as ImplyInner<T>>::Is` equals `T` for all types everywhere. -/
theorem imply_inner_sealed :
    visibleOutsideCrate crateItems implyInnerDecl = false ∧
    externallyImplementable crateItems "ImplyInner" = false ∧
    externallyImplementable crateItems "Imply" = true ∧
    ∀ (ty : Type) (U T : ty), implyInnerProj U T = T := by
  refine ⟨by decide, by decide, by decide, fun ty U T => rfl⟩
